import Mathlib

/-!
Verification of the captcha-relay core pipeline: answer parsing
(`CaptchaRelay._parseAnswer`), the Telegram relay state machine
(`TelegramAdapter.waitForReply` / `waitForButtonResponse` /
`buildGridKeyboard`), grid annotation (`annotate`), the answer injector
(`inject`) and the orchestrator (`CaptchaRelay.solve`), shallow-embedded
from `src/capture.js` (relay), `src/annotator.js`, `src/injector.js` and
`src/telegram.js`.
-/

/-- A separator character of the reply-splitting regex `[\s,]+`:
whitespace or a comma. -/
def isSepChar (c : Char) : Bool := c.isWhitespace || c = ','

/-- Worker for `jsSplitSeps`: left-to-right scan keeping the current token
(reversed) and whether the previous character belonged to a separator run.
A separator ends the current token; further separator characters of the
same run are consumed without creating empty tokens, matching the
semantics of JavaScript `String.prototype.split(/[\s,]+/)`. -/
def splitSepsGo : List Char → List Char → Bool → List (List Char)
  | [], cur, _ => [cur.reverse]
  | c :: rest, cur, lastSep =>
    if isSepChar c then
      if lastSep then splitSepsGo rest cur true
      else cur.reverse :: splitSepsGo rest [] true
    else splitSepsGo rest (c :: cur) false

/-- `text.split(/[\s,]+/)` from `CaptchaRelay._parseAnswer`: split on any
run of whitespace and/or commas.  A leading or trailing separator run
yields an empty edge token, exactly as in JavaScript. -/
def jsSplitSeps (t : List Char) : List (List Char) := splitSepsGo t [] false

/-- Numeric value of a digit character in bases up to 16 (JavaScript
number-literal digits); non-digit characters get a sentinel value 99 so
that `charDigitVal c < base` doubles as a digit test. -/
def charDigitVal (c : Char) : ℕ :=
  if '0' ≤ c ∧ c ≤ '9' then c.toNat - '0'.toNat
  else if 'a' ≤ c ∧ c ≤ 'f' then c.toNat - 'a'.toNat + 10
  else if 'A' ≤ c ∧ c ≤ 'F' then c.toNat - 'A'.toNat + 10
  else 99

/-- Value of a digit string in the given base (big-endian fold). -/
def natOfDigits (base : ℕ) (l : List Char) : ℕ :=
  l.foldl (fun a c => a * base + charDigitVal c) 0

/-- An exact JavaScript number value arising from `Number(...)`
conversion, as a decimal-scaled integer `mant * 10 ^ e`.  This represents
the conversion result exactly for every literal (float64 rounding is not
modelled; no verified property depends on it). -/
structure JsNum where
  mant : ℤ
  e : ℤ
deriving DecidableEq, Repr

/-- Numerals denote whole JavaScript numbers (`n * 10 ^ 0`). -/
instance (n : ℕ) : OfNat JsNum n := ⟨⟨(n : ℤ), 0⟩⟩

/-- The rational value of a JavaScript number. -/
def JsNum.toRat (v : JsNum) : ℚ := (v.mant : ℚ) * (10 : ℚ) ^ v.e

/-- Strict positivity of a JavaScript number (`n > 0`): the sign of
`mant * 10 ^ e` is the sign of `mant`. -/
def JsNum.pos (v : JsNum) : Bool := 0 < v.mant

/-- Radix-prefixed integer literal body (after `0x`/`0o`/`0b`): every
character must be a digit of the base and at least one digit is required,
otherwise JavaScript `Number` yields NaN (`none`). -/
def parseRadix (base : ℕ) (l : List Char) : Option JsNum :=
  if l ≠ [] ∧ l.all (fun c => charDigitVal c < base) then
    some ⟨(natOfDigits base l : ℤ), 0⟩
  else none

/-- Exponent part of a decimal literal, after `e`/`E`: optional sign and a
non-empty digit string; returns the signed exponent. -/
def parseExponent (l : List Char) : Option ℤ :=
  let sd : ℤ × List Char :=
    match l with
    | '+' :: r => (1, r)
    | '-' :: r => (-1, r)
    | r => (1, r)
  if sd.2 ≠ [] ∧ sd.2.all Char.isDigit then
    some (sd.1 * (natOfDigits 10 sd.2 : ℤ))
  else none

/-- Unsigned decimal literal `digits [. digits] [e|E exponent]` with at
least one mantissa digit; `ip.fp e x` has the exact value
`(ip ++ fp) * 10 ^ (x - fp.length)`. -/
def parseDecimal (t : List Char) : Option JsNum :=
  let ip := t.takeWhile Char.isDigit
  let r1 := t.dropWhile Char.isDigit
  let fpr2 : List Char × List Char :=
    match r1 with
    | '.' :: r => (r.takeWhile Char.isDigit, r.dropWhile Char.isDigit)
    | _ => ([], r1)
  let fp := fpr2.1
  let r2 := fpr2.2
  if ip = [] ∧ fp = [] then none
  else
    let mant : ℤ := (natOfDigits 10 (ip ++ fp) : ℤ)
    match r2 with
    | [] => some ⟨mant, -(fp.length : ℤ)⟩
    | e :: r3 =>
      if e = 'e' ∨ e = 'E' then
        match parseExponent r3 with
        | some z => some ⟨mant, z - (fp.length : ℤ)⟩
        | none => none
      else none

/-- Unsigned part of a JavaScript `Number(...)` conversion: a radix
(`0x`/`0o`/`0b`) integer literal or a decimal literal. -/
def jsNumUnsigned (t : List Char) : Option JsNum :=
  match t with
  | '0' :: c :: rest =>
    if c = 'x' ∨ c = 'X' then parseRadix 16 rest
    else if c = 'o' ∨ c = 'O' then parseRadix 8 rest
    else if c = 'b' ∨ c = 'B' then parseRadix 2 rest
    else parseDecimal t
  | _ => parseDecimal t

/-- JavaScript `Number(token)` on a separator-free token: the empty token
converts to 0, an optional sign precedes a radix or decimal literal,
anything else is NaN (`none`).  The `Infinity` spellings are not
modelled; no verified property depends on them. -/
def jsNumber (t : List Char) : Option JsNum :=
  match t with
  | [] => some ⟨0, 0⟩
  | '+' :: rest => jsNumUnsigned rest
  | '-' :: rest => (jsNumUnsigned rest).map (fun v => ⟨-v.mant, v.e⟩)
  | _ => jsNumUnsigned t

/-- JavaScript `String.prototype.trim()`: drop surrounding whitespace
(structural implementation, so that concrete runs reduce in the kernel). -/
def jsTrim (s : List Char) : List Char :=
  ((s.dropWhile Char.isWhitespace).reverse.dropWhile Char.isWhitespace).reverse

/-- `trim` on whole strings. -/
def jsTrimStr (s : String) : String := ⟨jsTrim s.data⟩

/-- A parsed human answer: cell numbers for grid mode (JavaScript
numbers) or the raw text for text mode. -/
inductive ParsedAnswer
  | cells (l : List JsNum)
  | text (s : String)
deriving DecidableEq, Repr

/-- `CaptchaRelay._parseAnswer(reply, type)`: trim the reply; for grid
kind split on runs of whitespace/commas, convert each token with `Number`
and keep the values that are neither NaN nor non-positive
(`!isNaN(n) && n > 0`, with NaN modelled as `none`); for any other kind
return the trimmed text as-is. -/
def parseAnswer (reply : String) (ty : String) : ParsedAnswer :=
  let text := jsTrimStr reply
  if ty = "grid" then
    .cells ((jsSplitSeps text.data).filterMap
      (fun tok => (jsNumber tok).bind (fun n => if n.pos then some n else none)))
  else
    .text text

example : parseAnswer "1 3 5 8" "grid" = .cells [1, 3, 5, 8] := by decide
example : parseAnswer "2,4,6" "grid" = .cells [2, 4, 6] := by decide
example : parseAnswer "xK9mP2" "text" = .text "xK9mP2" := by decide

/-- An inbound Telegram message (`update.message`): the chat it came from
(`String(msg.chat.id)`) and its optional text. -/
structure TgMessage where
  chat_id : String
  text : Option String
deriving DecidableEq, Repr

/-- A callback-data token attached to an inline button, as produced by
`buildGridKeyboard`: `"cell:" + n` is `cell n`, plus the `skip` and
`submit` action tokens; `other` covers any unrecognized token (which the
source leaves unhandled after advancing the cursor). -/
inductive CbAction
  | submit
  | skip
  | cell (n : ℕ)
  | other (s : String)
deriving DecidableEq, Repr

/-- A callback query (`update.callback_query`): its id, its data token,
and the chat id / message id of the message its button belongs to
(`cb.message?.chat?.id`, `cb.message?.message_id`). -/
structure TgCallback where
  id : String
  data : CbAction
  msg_chat_id : Option String
  msg_message_id : Option ℕ
deriving DecidableEq, Repr

/-- One `getUpdates` element: an update id plus optional message and
callback-query payloads. -/
structure TgUpdate where
  update_id : ℕ
  message : Option TgMessage
  callback_query : Option TgCallback
deriving DecidableEq, Repr

/-- An inline keyboard button: visible label and callback-data token. -/
structure Button where
  text : String
  callback_data : CbAction
deriving DecidableEq, Repr

/-- `buildGridKeyboard(cols, rows, selected)`: `rows` rows of `cols` cell
buttons (the running cell counter at row `r`, column `c` is
`r * cols + c + 1`), each labelled with its number — prefixed with a
check mark when currently selected — plus a trailing action row with the
skip button and the submit button whose label carries the live selection
count. -/
def buildGridKeyboard (cols rows : ℕ) (selected : List ℕ) : List (List Button) :=
  ((List.range rows).map (fun r =>
    (List.range cols).map (fun c =>
      let cellNum := r * cols + c + 1
      { text := if cellNum ∈ selected then "✅ " ++ toString cellNum else toString cellNum,
        callback_data := CbAction.cell cellNum }))) ++
  [[{ text := "⏭️ Skip", callback_data := CbAction.skip },
    { text := "✅ Submit (" ++ toString selected.length ++ ")", callback_data := CbAction.submit }]]

/-- Button at row `r`, column `c` of a keyboard layout. -/
def keyboardButton (kb : List (List Button)) (r c : ℕ) : Option Button :=
  (kb[r]?).bind (fun row => row[c]?)

/-- The `selectedCells` toggle of the `cell:<n>` handler: a JavaScript
`Set` is modelled as its insertion-ordered, duplicate-free element list;
`delete` removes the element, `add` appends it. -/
def toggleCell (n : ℕ) (sel : List ℕ) : List ℕ :=
  if n ∈ sel then sel.erase n else sel ++ [n]

/-- `[...selected].sort((a, b) => a - b)`: the selected cells in ascending
order (any correct ascending sort computes this same list). -/
def submitCells (sel : List ℕ) : List ℕ := List.insertionSort (· ≤ ·) sel

/-- The `answerCallbackQuery` confirmation text of a submit press. -/
def submitAck (sel : List ℕ) : String :=
  "✅ Submitting: " ++ String.intercalate ", " ((submitCells sel).map toString)

/-- The `answerCallbackQuery` confirmation text of a `cell:<n>` press. -/
def toggleAck (n : ℕ) (sel : List ℕ) : String :=
  if n ∈ sel then "Deselected " ++ toString n else "Selected " ++ toString n

/-- An observable Telegram side effect of the button loop:
`answerCallbackQuery` or `editMessageReplyMarkup`. -/
inductive Effect
  | ack (cbId : String) (text : String)
  | editMarkup (chat : String) (messageId : ℕ) (keyboard : List (List Button))
deriving DecidableEq, Repr

/-- The terminal value of `waitForButtonResponse`: the chosen cells and
the skipped flag. -/
structure BtnResult where
  cells : List ℕ
  skipped : Bool
deriving DecidableEq, Repr

/-- `text.match(/\d+/g)?.map(Number) || []` worker: maximal digit runs of
the character list, each converted to its numeric value; `cur` is the
(reversed) run in progress. -/
def digitRunsGo : List Char → List Char → List ℕ
  | [], cur => if cur.isEmpty then [] else [natOfDigits 10 cur.reverse]
  | c :: rest, cur =>
    if c.isDigit then digitRunsGo rest (c :: cur)
    else if cur.isEmpty then digitRunsGo rest []
    else natOfDigits 10 cur.reverse :: digitRunsGo rest []

/-- `text.match(/\d+/g)?.map(Number) || []`: the numbers spelled by the
maximal digit runs of a string, in order of occurrence. -/
def digitRuns (s : String) : List ℕ := digitRunsGo s.data []

/-- Result of processing updates in the button loop: the cursor
(`_lastUpdateId`), the selection state, the emitted side effects, the
terminal result if one was reached, and the ids of the updates that were
acted on (those for which the source executed
`this._lastUpdateId = update.update_id + 1`). -/
structure BtnStepOut where
  cursor : ℕ
  selected : List ℕ
  effects : List Effect
  result : Option BtnResult
  acted : List ℕ
deriving DecidableEq, Repr

/-- The body of `waitForButtonResponse`'s per-update loop: first the text
fallback (a text message from the target chat advances the cursor and, if
it contains digits, terminates with those cells), then the callback
branch (ignored unless addressed to the session's chat and message;
`submit` acknowledges, clears the keyboard and returns the sorted
selection; `skip` acknowledges, clears the keyboard and returns an empty
skipped selection; `cell:<n>` toggles the cell, acknowledges, and
re-renders the keyboard for the new selection). -/
def processButtonUpdate (target : String) (messageId : ℕ) (cols rows : ℕ)
    (cursor : ℕ) (sel : List ℕ) (u : TgUpdate) : BtnStepOut :=
  let textHit : Option String :=
    match u.message with
    | some m =>
      match m.text with
      | some t => if m.chat_id = target then some t else none
      | none => none
    | none => none
  let afterText : ℕ × List ℕ × Option BtnResult :=
    match textHit with
    | some t =>
      (u.update_id + 1, [u.update_id],
        (if (digitRuns t).isEmpty then none else some ⟨digitRuns t, false⟩))
    | none => (cursor, [], none)
  match afterText with
  | (c1, acted1, some r) => ⟨c1, sel, [], some r, acted1⟩
  | (c1, acted1, none) =>
    match u.callback_query with
    | none => ⟨c1, sel, [], none, acted1⟩
    | some cb =>
      if cb.msg_chat_id ≠ some target then ⟨c1, sel, [], none, acted1⟩
      else if cb.msg_message_id ≠ some messageId then ⟨c1, sel, [], none, acted1⟩
      else
        let c2 := u.update_id + 1
        let acted2 := if acted1.isEmpty then [u.update_id] else acted1
        match cb.data with
        | .submit =>
          ⟨c2, sel,
            [.ack cb.id (submitAck sel), .editMarkup target messageId []],
            some ⟨submitCells sel, false⟩, acted2⟩
        | .skip =>
          ⟨c2, sel,
            [.ack cb.id "⏭️ Skipping", .editMarkup target messageId []],
            some ⟨[], true⟩, acted2⟩
        | .cell n =>
          ⟨c2, toggleCell n sel,
            [.ack cb.id (toggleAck n sel),
             .editMarkup target messageId (buildGridKeyboard cols rows (toggleCell n sel))],
            none, acted2⟩
        | .other _ => ⟨c2, sel, [], none, acted2⟩

/-- Process a whole `getUpdates` batch in order, stopping at the first
terminal event, accumulating effects and acted-on update ids. -/
def processButtonBatch (target : String) (messageId : ℕ) (cols rows : ℕ) :
    ℕ → List ℕ → List TgUpdate → BtnStepOut
  | c, sel, [] => ⟨c, sel, [], none, []⟩
  | c, sel, u :: rest =>
    let o := processButtonUpdate target messageId cols rows c sel u
    match o.result with
    | some _ => o
    | none =>
      let o2 := processButtonBatch target messageId cols rows o.cursor o.selected rest
      ⟨o2.cursor, o2.selected, o.effects ++ o2.effects, o2.result, o.acted ++ o2.acted⟩

/-- The largest update id of a batch (`Math.max(...ids)` over a non-empty
batch). -/
def maxUpdateId (l : List TgUpdate) : ℕ :=
  l.foldr (fun u m => max u.update_id m) 0

/-- The cursor advance performed inside `_getUpdates`: on a non-empty
batch, set `_lastUpdateId` to the largest returned update id plus one; an
empty batch (including a failed fetch, which the source swallows as an
empty result) leaves the cursor unchanged. -/
def getUpdatesCursor (cursor : ℕ) (batch : List TgUpdate) : ℕ :=
  if batch.isEmpty then cursor else maxUpdateId batch + 1

/-- One fetch-and-process iteration of `waitForButtonResponse`:
`_getUpdates` advances the cursor past the batch, then the batch is
processed in order. -/
def waitForButtonStep (target : String) (messageId : ℕ) (cols rows : ℕ)
    (cursor : ℕ) (sel : List ℕ) (batch : List TgUpdate) : BtnStepOut :=
  processButtonBatch target messageId cols rows (getUpdatesCursor cursor batch) sel batch

/-- The `waitForButtonResponse` polling loop over a finite sequence of
fetched batches (the deadline is modelled by the sequence being finite;
reaching its end without a terminal event is the timeout). -/
def runWaitForButton (target : String) (messageId : ℕ) (cols rows : ℕ) :
    ℕ → List ℕ → List (List TgUpdate) → BtnStepOut
  | c, sel, [] => ⟨c, sel, [], none, []⟩
  | c, sel, b :: bs =>
    let o := waitForButtonStep target messageId cols rows c sel b
    match o.result with
    | some _ => o
    | none =>
      let o2 := runWaitForButton target messageId cols rows o.cursor o.selected bs
      ⟨o2.cursor, o2.selected, o.effects ++ o2.effects, o2.result, o.acted ++ o2.acted⟩

/-- The scan of `waitForReply`'s per-update loop: the first update whose
message has text and comes from the target chat, with its id and text. -/
def findReply (target : String) : List TgUpdate → Option (ℕ × String)
  | [] => none
  | u :: rest =>
    match u.message with
    | some m =>
      match m.text with
      | some t => if m.chat_id = target then some (u.update_id, jsTrimStr t) else findReply target rest
      | none => findReply target rest
    | none => findReply target rest

/-- One fetch-and-process iteration of `waitForReply`: `_getUpdates`
advances the cursor past the batch; a matching text message sets the
cursor just past its own id and returns its trimmed text (also recorded
as the acted-on update). -/
def waitForReplyStep (target : String) (cursor : ℕ) (batch : List TgUpdate) :
    ℕ × Option String × List ℕ :=
  let c1 := getUpdatesCursor cursor batch
  match findReply target batch with
  | some (uid, t) => (uid + 1, some t, [uid])
  | none => (c1, none, [])

/-- The `waitForReply` polling loop over a finite sequence of fetched
batches. -/
def runWaitForReply (target : String) :
    ℕ → List (List TgUpdate) → ℕ × Option String × List ℕ
  | c, [] => (c, none, [])
  | c, b :: bs =>
    match waitForReplyStep target c b with
    | (c1, some t, acted) => (c1, some t, acted)
    | (c1, none, _) => runWaitForReply target c1 bs

/-- A batch honours the `getUpdates` offset contract at cursor `c`: every
returned update id is at least the requested offset, and ids are strictly
increasing in arrival order. -/
def validBatch (c : ℕ) (batch : List TgUpdate) : Bool :=
  batch.all (fun u => c ≤ u.update_id) &&
    decide ((batch.map (fun u => u.update_id)).Pairwise (· < ·))

/-- Each batch of a `waitForReply` run honours the offset contract with
respect to the cursor at the time of its fetch. -/
def validRunReply (target : String) : ℕ → List (List TgUpdate) → Bool
  | _, [] => true
  | c, b :: bs => validBatch c b && validRunReply target (waitForReplyStep target c b).1 bs

/-- Each batch of a `waitForButtonResponse` run honours the offset
contract with respect to the cursor at the time of its fetch. -/
def validRunButton (target : String) (messageId : ℕ) (cols rows : ℕ) :
    ℕ → List ℕ → List (List TgUpdate) → Bool
  | _, _, [] => true
  | c, sel, b :: bs =>
    let o := waitForButtonStep target messageId cols rows c sel b
    validBatch c b && validRunButton target messageId cols rows o.cursor o.selected bs

/-- A callback-only update, as produced by a button press on the
session's own message. -/
def mkCbUpdate (uid : ℕ) (cbId : String) (data : CbAction)
    (chat : String) (msgId : ℕ) : TgUpdate :=
  ⟨uid, none, some ⟨cbId, data, some chat, some msgId⟩⟩

example :
    (processButtonUpdate "9" 1 3 3 0 [2] (mkCbUpdate 7 "cb" (.cell 5) "9" 1)).selected
      = [2, 5] := by decide
example :
    (processButtonUpdate "9" 1 3 3 0 [2, 5] (mkCbUpdate 8 "cb" .submit "9" 1)).result
      = some ⟨[2, 5], false⟩ := by decide
example : runWaitForReply "9" 0 [[⟨3, some ⟨"7", some "x"⟩, none⟩],
    [⟨5, some ⟨"9", some " hi "⟩, none⟩]] = (6, some "hi", [5]) := by decide

/-- A raster image, abstracted to its pixel dimensions (the pixel
contents play no role in any verified property). -/
structure Image where
  width : ℕ
  height : ℕ
deriving DecidableEq, Repr

/-- One numbered badge of the grid overlay: its number and the centroid
`(cx, cy)` of its cell, computed with exact (float-free) arithmetic.
The presentation attributes of the SVG overlay (colors, font, badge
radius) do not affect any verified property and are not modelled. -/
structure Badge where
  num : ℕ
  cx : ℚ
  cy : ℚ
deriving DecidableEq, Repr

/-- The result of `annotate`: `sharp(...).composite(...)` keeps the base
image dimensions (the overlay SVG has the same width and height and is
placed at the origin), so the output carries the input dimensions plus
the overlay badge list. -/
structure AnnotatedImage where
  width : ℕ
  height : ℕ
  badges : List Badge
deriving DecidableEq, Repr

/-- `annotate(imageBuffer, {cols, rows})` from `src/annotator.js`: divide
the image into `cols × rows` cells (`cellWidth = width / cols`,
`cellHeight = height / rows`) and place one numbered badge at the center
of each cell, numbering left-to-right, top-to-bottom starting at 1 (the
running counter at row `row`, column `col` is `row * cols + col + 1`). -/
def annotate (img : Image) (cols rows : ℕ) : AnnotatedImage :=
  let cellWidth : ℚ := (img.width : ℚ) / (cols : ℚ)
  let cellHeight : ℚ := (img.height : ℚ) / (rows : ℚ)
  { width := img.width,
    height := img.height,
    badges :=
      (List.range rows).flatMap (fun row =>
        (List.range cols).map (fun col =>
          { num := row * cols + col + 1,
            cx := (col : ℚ) * cellWidth + cellWidth / 2,
            cy := (row : ℚ) * cellHeight + cellHeight / 2 })) }

/-- The result of `annotateText`: a fixed-height 30-pixel instruction
banner is prepended above the image (`extend({ top: bannerHeight })`),
with a fixed instruction text. -/
structure TextAnnotated where
  width : ℕ
  height : ℕ
  banner : String
deriving DecidableEq, Repr

/-- `annotateText(imageBuffer)` from `src/annotator.js`. -/
def annotateText (img : Image) : TextAnnotated :=
  { width := img.width,
    height := img.height + 30,
    banner := "Reply with the text you see in the image" }

/-- A detection result (`detect(page)` element): widget type, whether an
open challenge iframe is present, and the bounding rectangle if any. -/
structure Rect where
  x : ℚ
  y : ℚ
  width : ℚ
  height : ℚ
deriving DecidableEq, Repr

/-- A detected CAPTCHA descriptor. -/
structure Captcha where
  type : String
  hasChallenge : Bool
  rect : Option Rect
deriving DecidableEq, Repr

/-- A DOM interaction performed by the injector (element handles are
opaque numbers). -/
inductive PageAction
  | click (el : ℕ)
  | fill (el : ℕ) (text : String)
deriving DecidableEq, Repr

/-- The browser-page oracle consumed by the injector: each primitive
returns normally or throws (`Except.error`), exactly the two outcomes a
DOM call can have.  `query` is `page.$`/`frame.$`, `queryAll` is
`frame.$$`, `contentFrame` resolves an iframe handle. -/
structure Page where
  query : String → Except String (Option ℕ)
  contentFrame : ℕ → Except String (Option ℕ)
  frameQuery : ℕ → String → Except String (Option ℕ)
  frameQueryAll : ℕ → String → Except String (List ℕ)
  click : ℕ → Except String Unit
  fill : ℕ → String → Except String Unit

/-- The JavaScript number as an integer, when it is one
(`mant * 10 ^ e` with no fractional part). -/
def JsNum.toInt? (v : JsNum) : Option ℤ :=
  if 0 ≤ v.e then some (v.mant * (10 : ℤ) ^ v.e.toNat)
  else
    let d : ℤ := (10 : ℤ) ^ (-v.e).toNat
    if v.mant % d = 0 then some (v.mant / d) else none

/-- `k ≤ v` for an integer bound (cross-multiplied by the decimal
scale). -/
def JsNum.geInt (v : JsNum) (k : ℤ) : Bool :=
  if 0 ≤ v.e then k ≤ v.mant * (10 : ℤ) ^ v.e.toNat
  else k * (10 : ℤ) ^ (-v.e).toNat ≤ v.mant

/-- `v < k` for an integer bound (cross-multiplied by the decimal
scale). -/
def JsNum.ltInt (v : JsNum) (k : ℤ) : Bool :=
  if 0 ≤ v.e then v.mant * (10 : ℤ) ^ v.e.toNat < k
  else v.mant < k * (10 : ℤ) ^ (-v.e).toNat

/-- The cell-clicking loop of `injectGrid`: for each requested number,
`index = num - 1`; an in-bounds integer index clicks the corresponding
cell element (which may throw); an in-bounds fractional index indexes an
undefined array element, so the `.click()` call throws; an out-of-bounds
index is silently skipped.  The randomized inter-click delays are timing
only and are not modelled. -/
def clickCells (page : Page) (cells : List ℕ) :
    List JsNum → Except String Unit × List PageAction
  | [] => (.ok (), [])
  | num :: rest =>
    if num.geInt 1 && num.ltInt ((cells.length : ℤ) + 1) then
      match num.toInt? with
      | some i =>
        match cells[(i - 1).toNat]? with
        | some el =>
          match page.click el with
          | .error err => (.error err, [])
          | .ok _ =>
            let o := clickCells page cells rest
            (o.1, .click el :: o.2)
        | none => clickCells page cells rest
      | none => (.error "TypeError: cells[index].click is not a function", [])
    else clickCells page cells rest

/-- The challenge-iframe selector of `injectGrid`. -/
def bframeSelector (captcha : Captcha) : String :=
  if captcha.type = "recaptcha-v2" then "iframe[src*=\"recaptcha/api2/bframe\"]"
  else "iframe[src*=\"hcaptcha.com/captcha\"]"

/-- The grid-cell selector of `injectGrid`. -/
def cellSelectorOf (captcha : Captcha) : String :=
  if captcha.type = "recaptcha-v2" then "td.rc-imageselect-tile"
  else ".task-image .image-wrapper"

/-- The verify-button selector of `injectGrid`. -/
def verifySelectorOf (captcha : Captcha) : String :=
  if captcha.type = "recaptcha-v2" then "#recaptcha-verify-button"
  else ".button-submit"

/-- `injectGrid(page, captcha, cellNumbers)`: locate the challenge
iframe and its grid cells (missing frame or cells ⇒ `false`), click the
requested cells, then click the verify button if present. -/
def injectGrid (page : Page) (captcha : Captcha) (cellNumbers : List JsNum) :
    Except String Bool × List PageAction :=
  match page.query (bframeSelector captcha) with
  | .error err => (.error err, [])
  | .ok none => (.ok false, [])
  | .ok (some fh) =>
    match page.contentFrame fh with
    | .error err => (.error err, [])
    | .ok none => (.ok false, [])
    | .ok (some frame) =>
      match page.frameQueryAll frame (cellSelectorOf captcha) with
      | .error err => (.error err, [])
      | .ok cells =>
        if cells.length = 0 then (.ok false, [])
        else
          match clickCells page cells cellNumbers with
          | (.error err, t) => (.error err, t)
          | (.ok _, t) =>
            match page.frameQuery frame (verifySelectorOf captcha) with
            | .error err => (.error err, t)
            | .ok none => (.ok true, t)
            | .ok (some btn) =>
              match page.click btn with
              | .error err => (.error err, t)
              | .ok _ => (.ok true, t ++ [.click btn])

/-- The ordered input-field selector list of `injectText`. -/
def inputSelectors : List String :=
  ["input[name*=\"captcha\"]",
   "input[id*=\"captcha\"]",
   "input[class*=\"captcha\"]",
   "input[placeholder*=\"captcha\" i]",
   "input[placeholder*=\"code\" i]"]

/-- The selector loop of `injectText`: the first matching input is
clicked and filled with the answer text; no match ⇒ `false`. -/
def injectTextLoop (page : Page) (text : String) :
    List String → Except String Bool × List PageAction
  | [] => (.ok false, [])
  | sel :: rest =>
    match page.query sel with
    | .error err => (.error err, [])
    | .ok none => injectTextLoop page text rest
    | .ok (some input) =>
      match page.click input with
      | .error err => (.error err, [])
      | .ok _ =>
        match page.fill input text with
        | .error err => (.error err, [.click input])
        | .ok _ => (.ok true, [.click input, .fill input text])

/-- `injectText(page, captcha, text)`. -/
def injectText (page : Page) (text : String) :
    Except String Bool × List PageAction :=
  injectTextLoop page text inputSelectors

/-- `injectCheckbox(page, captcha)`: locate the anchor iframe and click
its checkbox. -/
def injectCheckbox (page : Page) :
    Except String Bool × List PageAction :=
  match page.query "iframe[src*=\"recaptcha/api2/anchor\"]" with
  | .error err => (.error err, [])
  | .ok none => (.ok false, [])
  | .ok (some fh) =>
    match page.contentFrame fh with
    | .error err => (.error err, [])
    | .ok none => (.ok false, [])
    | .ok (some frame) =>
      match page.frameQuery frame "#recaptcha-anchor" with
      | .error err => (.error err, [])
      | .ok none => (.ok false, [])
      | .ok (some checkbox) =>
        match page.click checkbox with
        | .error err => (.error err, [])
        | .ok _ => (.ok true, [.click checkbox])

/-- The grid cells of an answer (a text answer reaching the grid branch,
which the orchestrator never produces, defaults to no cells). -/
def answerCellList : ParsedAnswer → List JsNum
  | .cells l => l
  | .text _ => []

/-- The text of an answer (a cells answer reaching the text branch
defaults to the empty string). -/
def answerTextOf : ParsedAnswer → String
  | .text s => s
  | .cells _ => ""

/-- The body of `inject`'s `try` block: dispatch on the kind; an
unrecognized kind falls through to `return false` without touching the
page. -/
def injectTry (page : Page) (captcha : Captcha) (answer : ParsedAnswer)
    (ty : String) : Except String Bool × List PageAction :=
  if ty = "grid" then injectGrid page captcha (answerCellList answer)
  else if ty = "text" then injectText page (answerTextOf answer)
  else if ty = "checkbox" then injectCheckbox page
  else (.ok false, [])

/-- `inject(page, captcha, answer, type)` from `src/injector.js`: the
dispatch wrapped in `try/catch`; any exception is logged and converted
into a `false` return, so the caller always receives a boolean. -/
def inject (page : Page) (captcha : Captcha) (answer : ParsedAnswer)
    (ty : String) : Bool × List PageAction :=
  match injectTry page captcha answer ty with
  | (.ok b, t) => (b, t)
  | (.error _, t) => (false, t)

/-- `CaptchaRelay._inferType(captcha)`: widget types with an open
challenge are grid, without one checkbox; anything else text. -/
def inferType (captcha : Captcha) : String :=
  if captcha.type = "recaptcha-v2" ∨ captcha.type = "hcaptcha" then
    if captcha.hasChallenge then "grid" else "checkbox"
  else "text"

/-- `CaptchaRelay._inferGridSize(captcha)`: 3×3 for every widget type
(the source spells out the reCAPTCHA and hCaptcha branches, all of which
return 3×3). -/
def inferGridSize (captcha : Captcha) : ℕ × ℕ :=
  if captcha.type = "recaptcha-v2" then (3, 3)
  else if captcha.type = "hcaptcha" then (3, 3)
  else (3, 3)

/-- JavaScript `a || b` for an optional numeric option: absent or zero
(falsy) falls back to the default. -/
def jsOr (o : Option ℕ) (d : ℕ) : ℕ :=
  match o with
  | some n => if n = 0 then d else n
  | none => d

/-- The photo payload handed to `telegram.sendPhoto`. -/
inductive SentPhoto
  | gridAnnotated (a : AnnotatedImage)
  | textBanner (t : TextAnnotated)
deriving DecidableEq, Repr

/-- An observable external call of `CaptchaRelay.solve`: the Telegram
image send, or the injector invocation. -/
inductive SolveEffect
  | sendPhoto (chat : String) (photo : SentPhoto) (caption : String)
  | injectCall (ty : String)
deriving DecidableEq, Repr

/-- Whether an effect is the image-send step. -/
def isSendPhoto : SolveEffect → Bool
  | .sendPhoto _ _ _ => true
  | _ => false

/-- Whether an effect is an injector invocation. -/
def isInjectCall : SolveEffect → Bool
  | .injectCall _ => true
  | _ => false

/-- The terminal value of one `solve` attempt.  The source's success
return carries no `error` field, modelled as `none`. -/
structure SolveResult where
  success : Bool
  answer : Option String
  type : Option String
  error : Option String
deriving DecidableEq, Repr

/-- Relay configuration (`config.chatId`, `config.timeout`). -/
structure RelayConfig where
  chatId : String
  timeout : ℕ
deriving DecidableEq, Repr

/-- Caller options of `solve` (`type = 'auto'` by default, optional grid
dimension overrides). -/
structure SolveOptions where
  type : String
  cols : Option ℕ
  rows : Option ℕ
deriving DecidableEq, Repr

/-- The environment of one `solve` attempt: the detection outcome, the
captured screenshot (the clip computation happens in the browser and only
its resulting image is modelled), the outcome of the human reply wait
(`none` is the timeout), and the page oracle used by the injector. -/
structure SolveEnv where
  detected : List Captcha
  screenshot : Image
  reply : Option String
  page : Page

/-- `CaptchaRelay.solve(page, options)` from `src/relay.js`: detect (an
empty detection returns the no-CAPTCHA failure before anything is sent);
infer or take the forced kind; annotate the screenshot (grid overlay with
the 3×3 default dimensions, or the text banner); send the photo with
instructions; wait for the human reply (absence returns the timeout
failure); parse the reply and inject, mirroring the injector's boolean as
`success` and carrying the raw reply as `answer`.  The returned trace
lists the external calls in order.  The caption's timeout seconds use
natural division by 1000 (exact for the source's millisecond values). -/
def solve (cfg : RelayConfig) (env : SolveEnv) (opts : SolveOptions) :
    SolveResult × List SolveEffect :=
  match env.detected with
  | [] => (⟨false, none, none, some "No CAPTCHA detected"⟩, [])
  | captcha :: _ =>
    let captchaType := if opts.type = "auto" then inferType captcha else opts.type
    let sent : SentPhoto × String :=
      if captchaType = "grid" then
        let gridCols := jsOr opts.cols (inferGridSize captcha).1
        let gridRows := jsOr opts.rows (inferGridSize captcha).2
        (.gridAnnotated (annotate env.screenshot gridCols gridRows),
          "🔓 CAPTCHA detected! Reply with the numbers of the correct cells (e.g. \"1 3 5 8\").\nGrid: "
            ++ toString gridRows ++ "×" ++ toString gridCols ++ ". Timeout: "
            ++ toString (cfg.timeout / 1000) ++ "s.")
      else
        (.textBanner (annotateText env.screenshot),
          "🔓 CAPTCHA detected! Reply with the text you see in the image.\nTimeout: "
            ++ toString (cfg.timeout / 1000) ++ "s.")
    let sendEff := SolveEffect.sendPhoto cfg.chatId sent.1 sent.2
    match env.reply with
    | none =>
      (⟨false, none, some captchaType, some "Timeout waiting for human response"⟩, [sendEff])
    | some reply =>
      let answer := parseAnswer reply captchaType
      let injected := inject env.page captcha answer captchaType
      (⟨injected.1, some reply, some captchaType, none⟩, [sendEff, .injectCall captchaType])

/-- A page oracle on which every primitive succeeds but finds nothing. -/
def emptyPage : Page :=
  { query := fun _ => .ok none,
    contentFrame := fun _ => .ok none,
    frameQuery := fun _ _ => .ok none,
    frameQueryAll := fun _ _ => .ok [],
    click := fun _ => .ok (),
    fill := fun _ _ => .ok () }

/-- A page oracle whose every primitive throws. -/
def throwingPage : Page :=
  { query := fun _ => .error "boom",
    contentFrame := fun _ => .error "boom",
    frameQuery := fun _ _ => .error "boom",
    frameQueryAll := fun _ _ => .error "boom",
    click := fun _ => .error "boom",
    fill := fun _ _ => .error "boom" }

example :
    (solve ⟨"c", 120000⟩ ⟨[], ⟨300, 300⟩, none, emptyPage⟩ ⟨"auto", none, none⟩).1.error
      = some "No CAPTCHA detected" := by decide
example :
    ((solve ⟨"c", 120000⟩ ⟨[⟨"recaptcha-v2", true, none⟩], ⟨300, 300⟩, none, emptyPage⟩
      ⟨"auto", none, none⟩).2.countP isSendPhoto) = 1 := by decide

theorem filterMap_bind_if_sublist {α β : Type} (l : List α) (f : α → Option β)
    (p : β → Bool) :
    (l.filterMap (fun a => (f a).bind (fun b => if p b then some b else none))).Sublist
      (l.filterMap f) := by
  induction l with
  | nil => simp
  | cons a l ih =>
    simp only [List.filterMap_cons]
    cases hf : f a with
    | none => simpa using ih
    | some b =>
      simp only [Option.bind_some]
      cases hp : p b with
      | false => simpa [hp] using ih.cons b
      | true => simpa [hp] using ih.cons₂ b

/-- C1 (amended): grid-kind parsing splits the trimmed reply on any run
of whitespace and/or commas, converts each token with JavaScript
`Number` — so a numeric but non-integer token such as `"2.5"` is kept
with its fractional value rather than as an integer — discards NaN and
non-positive values, and preserves first-occurrence order without
sorting (the parsed values form a sublist of the token values); text
kind returns the trimmed reply verbatim.  In particular `"1 3 5 8"`,
`"2,4,6"` and `"1, 3, 7"` parse to `[1,3,5,8]`, `[2,4,6]`, `[1,3,7]`,
`"5 2 9"` stays unsorted as `[5,2,9]`, non-numeric and non-positive
tokens in `"abc 0 -3 4"` are discarded leaving `[4]`, and text kind
returns `"xK9mP2"` unchanged. -/
theorem parse_answer_characterization :
    parseAnswer "1 3 5 8" "grid" = .cells [1, 3, 5, 8] ∧
    parseAnswer "2,4,6" "grid" = .cells [2, 4, 6] ∧
    parseAnswer "1, 3, 7" "grid" = .cells [1, 3, 7] ∧
    parseAnswer "xK9mP2" "text" = .text "xK9mP2" ∧
    parseAnswer "5 2 9" "grid" = .cells [5, 2, 9] ∧
    parseAnswer "abc 0 -3 4" "grid" = .cells [4] ∧
    parseAnswer "2.5" "grid" = .cells [⟨25, -1⟩] ∧
    (∀ reply : String, parseAnswer reply "text" = .text (jsTrimStr reply)) ∧
    (∀ reply : String,
      (answerCellList (parseAnswer reply "grid")).Sublist
        ((jsSplitSeps (jsTrimStr reply).data).filterMap jsNumber)) := by
  refine ⟨by decide, by decide, by decide, by decide, by decide, by decide, by decide, ?_, ?_⟩
  · intro reply
    simp [parseAnswer]
  · intro reply
    simp only [parseAnswer, if_pos rfl, answerCellList]
    exact filterMap_bind_if_sublist _ _ _

/-- C1 counterexample: the reply `"2.5"` parses in grid mode to the
single value 2.5 = 5/2, which is not an integer, refuting the claim that
every token is interpreted as an integer (and that non-integer tokens
are discarded as non-numeric). -/
theorem parse_answer_nonintegral :
    parseAnswer "2.5" "grid" = .cells [⟨25, -1⟩] ∧
    JsNum.toRat ⟨25, -1⟩ = 5 / 2 ∧
    ¬ ∃ n : ℤ, JsNum.toRat ⟨25, -1⟩ = (n : ℚ) := by
  have hval : JsNum.toRat ⟨25, -1⟩ = 5 / 2 := by
    norm_num [JsNum.toRat]
  refine ⟨by decide, hval, ?_⟩
  rintro ⟨n, h⟩
  rw [hval] at h
  have h2 : (5 : ℚ) = 2 * (n : ℚ) := by
    field_simp at h
    linarith
  have h3 : (5 : ℤ) = 2 * n := by exact_mod_cast h2
  omega

/-- C5 counterexample: the text-reply path parses `"3 1 3"` to the cell
sequence `[3, 1, 3]`, which is neither ascending nor deduplicated,
refuting the claim that every grid-mode parsed answer is ascending and
deduplicated in both paths. -/
theorem parse_cells_unsorted :
    parseAnswer "3 1 3" "grid" = .cells [3, 1, 3] ∧
    ¬ List.Sorted (fun a b : JsNum => a.toRat ≤ b.toRat) [3, 1, 3] ∧
    ¬ ([3, 1, 3] : List JsNum).Nodup := by
  refine ⟨by decide, ?_, by decide⟩
  intro h
  have h31 : JsNum.toRat 3 ≤ JsNum.toRat 1 :=
    (List.pairwise_cons.mp h).1 1 (by simp)
  have e3 : JsNum.toRat 3 = 3 := by
    show ((3 : ℤ) : ℚ) * (10 : ℚ) ^ (0 : ℤ) = 3
    norm_num
  have e1 : JsNum.toRat 1 = 1 := by
    show ((1 : ℤ) : ℚ) * (10 : ℚ) ^ (0 : ℤ) = 1
    norm_num
  rw [e3, e1] at h31
  norm_num at h31

/-- C5 (amended): the button-mode submit path returns the selected cells
as an ascending, duplicate-free sequence (the selection state is a Set,
kept duplicate-free by every toggle, and submit sorts it ascending);
the text-reply path and the typed-digits fallback instead preserve
first-occurrence order and may be unsorted or contain duplicates. -/
theorem button_submit_sorted (sel : List ℕ) (h : sel.Nodup) :
    List.Sorted (· ≤ ·) (submitCells sel) ∧
    (submitCells sel).Nodup ∧
    (∀ n, (toggleCell n sel).Nodup) ∧
    (∀ (target : String) (msgId cols rows cursor uid : ℕ) (cbId : String),
      (processButtonUpdate target msgId cols rows cursor sel
        (mkCbUpdate uid cbId .submit target msgId)).result
        = some ⟨submitCells sel, false⟩) := by
  refine ⟨List.sorted_insertionSort _ sel,
    ((List.perm_insertionSort _ sel).nodup_iff).mpr h, ?_, ?_⟩
  · intro n
    unfold toggleCell
    by_cases hn : n ∈ sel
    · rw [if_pos hn]
      exact h.erase n
    · rw [if_neg hn]
      rw [List.nodup_append]
      exact ⟨h, List.nodup_singleton n, by simpa using fun hmem => hn hmem⟩
  · intro target msgId cols rows cursor uid cbId
    simp [processButtonUpdate, mkCbUpdate]

theorem button_submit_sorted_witness :
    List.Sorted (· ≤ ·) (submitCells [3, 1]) ∧
    (toggleCell 2 [3, 1]).Nodup ∧
    (processButtonUpdate "t" 1 3 3 0 [3, 1]
      (mkCbUpdate 7 "cb" .submit "t" 1)).result = some ⟨submitCells [3, 1], false⟩ :=
  ⟨(button_submit_sorted [3, 1] (by decide)).1,
   (button_submit_sorted [3, 1] (by decide)).2.2.1 2,
   (button_submit_sorted [3, 1] (by decide)).2.2.2 "t" 1 3 3 0 7 "cb"⟩

/-- C7: toggling cell `n` twice returns the selected-cells set to its
pre-toggle state: membership is restored exactly, and the observable
submit output (the ascending cell list) is identical. -/
theorem toggle_toggle_id (n : ℕ) (sel : List ℕ) (h : sel.Nodup) :
    (∀ m, m ∈ toggleCell n (toggleCell n sel) ↔ m ∈ sel) ∧
    submitCells (toggleCell n (toggleCell n sel)) = submitCells sel := by
  have hperm : (toggleCell n (toggleCell n sel)).Perm sel := by
    by_cases hn : n ∈ sel
    · have h1 : toggleCell n sel = sel.erase n := if_pos hn
      have hnot : n ∉ sel.erase n := fun hmem =>
        ((h.mem_erase_iff.mp hmem).1) rfl
      rw [h1, toggleCell, if_neg hnot]
      exact (List.perm_append_singleton n (sel.erase n)).trans
        (List.perm_cons_erase hn).symm
    · have h1 : toggleCell n sel = sel ++ [n] := if_neg hn
      have hmem : n ∈ sel ++ [n] := by simp
      rw [h1, toggleCell, if_pos hmem, List.erase_append_right _ hn,
        List.erase_cons_head, List.append_nil]
  refine ⟨fun m => hperm.mem_iff, ?_⟩
  refine List.eq_of_perm_of_sorted ?_
    (List.sorted_insertionSort _ _) (List.sorted_insertionSort _ _)
  exact (List.perm_insertionSort _ _).trans
    (hperm.trans (List.perm_insertionSort _ sel).symm)

theorem toggle_toggle_id_witness :
    (∀ m, m ∈ toggleCell 2 (toggleCell 2 [1, 2, 3]) ↔ m ∈ [1, 2, 3]) ∧
    submitCells (toggleCell 2 (toggleCell 2 [1, 2, 3])) = submitCells [1, 2, 3] :=
  toggle_toggle_id 2 [1, 2, 3] (by decide)

theorem keyboardButton_grid (cols rows : ℕ) (sel : List ℕ) (r c : ℕ)
    (hr : r < rows) (hc : c < cols) :
    keyboardButton (buildGridKeyboard cols rows sel) r c
      = some ⟨if r * cols + c + 1 ∈ sel
                then "✅ " ++ toString (r * cols + c + 1)
                else toString (r * cols + c + 1),
              .cell (r * cols + c + 1)⟩ := by
  unfold keyboardButton buildGridKeyboard
  rw [List.getElem?_append]
  rw [if_pos (by simpa using hr)]
  rw [List.getElem?_map, List.getElem?_range hr]
  simp [List.getElem?_map, List.getElem?_range hc]

/-- C6: in the grid-selection loop, a submit activation acknowledges the
press, clears the message's keyboard, and returns the current selection
as an ascending sequence with `skipped = false`; a skip activation
acknowledges, clears the keyboard, and returns an empty selection with
`skipped = true`; a `cell:<n>` activation toggles membership of `n`,
acknowledges with a short confirmation, and re-renders the keyboard on
the same message so that the button of every cell `m` is marked exactly
when `m` is in the new selection. -/
theorem grid_button_protocol (target : String) (msgId cols rows cursor : ℕ)
    (sel : List ℕ) (uid : ℕ) (cbId : String) :
    (processButtonUpdate target msgId cols rows cursor sel
        (mkCbUpdate uid cbId .submit target msgId)
      = ⟨uid + 1, sel,
          [.ack cbId (submitAck sel), .editMarkup target msgId []],
          some ⟨submitCells sel, false⟩, [uid]⟩
      ∧ List.Sorted (· ≤ ·) (submitCells sel)) ∧
    processButtonUpdate target msgId cols rows cursor sel
        (mkCbUpdate uid cbId .skip target msgId)
      = ⟨uid + 1, sel,
          [.ack cbId "⏭️ Skipping", .editMarkup target msgId []],
          some ⟨[], true⟩, [uid]⟩ ∧
    (∀ n, processButtonUpdate target msgId cols rows cursor sel
        (mkCbUpdate uid cbId (.cell n) target msgId)
      = ⟨uid + 1, toggleCell n sel,
          [.ack cbId (toggleAck n sel),
           .editMarkup target msgId (buildGridKeyboard cols rows (toggleCell n sel))],
          none, [uid]⟩
      ∧ ∀ r c, r < rows → c < cols →
          keyboardButton (buildGridKeyboard cols rows (toggleCell n sel)) r c
            = some ⟨if r * cols + c + 1 ∈ toggleCell n sel
                      then "✅ " ++ toString (r * cols + c + 1)
                      else toString (r * cols + c + 1),
                    .cell (r * cols + c + 1)⟩) := by
  refine ⟨⟨?_, List.sorted_insertionSort _ sel⟩, ?_, ?_⟩
  · simp [processButtonUpdate, mkCbUpdate]
  · simp [processButtonUpdate, mkCbUpdate]
  · intro n
    refine ⟨by simp [processButtonUpdate, mkCbUpdate], ?_⟩
    intro r c hr hc
    exact keyboardButton_grid cols rows (toggleCell n sel) r c hr hc

theorem grid_button_protocol_witness :
    (processButtonUpdate "t" 1 3 3 0 [2]
        (mkCbUpdate 7 "cb" .submit "t" 1)
      = ⟨8, [2], [.ack "cb" (submitAck [2]), .editMarkup "t" 1 []],
          some ⟨submitCells [2], false⟩, [7]⟩
      ∧ List.Sorted (· ≤ ·) (submitCells [2])) ∧
    (processButtonUpdate "t" 1 3 3 0 [2]
        (mkCbUpdate 7 "cb" (.cell 5) "t" 1)
      = ⟨8, toggleCell 5 [2],
          [.ack "cb" (toggleAck 5 [2]),
           .editMarkup "t" 1 (buildGridKeyboard 3 3 (toggleCell 5 [2]))],
          none, [7]⟩) ∧
    keyboardButton (buildGridKeyboard 3 3 (toggleCell 5 [2])) 1 1
      = some ⟨if 1 * 3 + 1 + 1 ∈ toggleCell 5 [2]
                then "✅ " ++ toString (1 * 3 + 1 + 1)
                else toString (1 * 3 + 1 + 1),
              .cell (1 * 3 + 1 + 1)⟩ :=
  ⟨(grid_button_protocol "t" 1 3 3 0 [2] 7 "cb").1,
   ((grid_button_protocol "t" 1 3 3 0 [2] 7 "cb").2.2 5).1,
   ((grid_button_protocol "t" 1 3 3 0 [2] 7 "cb").2.2 5).2 1 1
     (by decide) (by decide)⟩

theorem range_flatMap_grid (rows cols : ℕ) :
    ((List.range rows).flatMap (fun r =>
      (List.range cols).map (fun c => r * cols + c + 1)))
      = List.range' 1 (rows * cols) := by
  induction rows with
  | zero => simp
  | succ n ih =>
    rw [List.range_succ, List.flatMap_append, ih, List.flatMap_singleton]
    have hinner : (List.range cols).map (fun c => n * cols + c + 1)
        = List.range' (1 + n * cols) cols := by
      rw [List.range'_eq_map_range]
      apply List.map_congr_left
      intro c _
      omega
    rw [hinner]
    have := List.range'_append 1 (n * cols) cols 1
    simp only [one_mul] at this
    rw [this]
    congr 1
    ring

/-- C9: for every input image and all `cols, rows ≥ 1`, `annotate`
returns an image of the same dimensions whose overlay contains exactly
`cols * rows` numbered badges, numbered `1 .. cols * rows` in row-major
order; in particular the badge of cell `(r, c)` carries the number
`r * cols + c + 1`. -/
theorem annotate_badge_numbering (img : Image) (cols rows : ℕ)
    (hc : 1 ≤ cols) (hr : 1 ≤ rows) :
    (annotate img cols rows).width = img.width ∧
    (annotate img cols rows).height = img.height ∧
    (annotate img cols rows).badges.length = cols * rows ∧
    ((annotate img cols rows).badges.map Badge.num) = List.range' 1 (cols * rows) ∧
    (∀ r c, r < rows → c < cols →
      ((annotate img cols rows).badges.map Badge.num)[r * cols + c]?
        = some (r * cols + c + 1)) := by
  have hmap : ((annotate img cols rows).badges.map Badge.num)
      = List.range' 1 (cols * rows) := by
    unfold annotate
    simp only [List.map_flatMap, List.map_map]
    rw [Nat.mul_comm cols rows]
    rw [← range_flatMap_grid rows cols]
    rfl
  refine ⟨rfl, rfl, ?_, hmap, ?_⟩
  · have := congrArg List.length hmap
    simpa using this
  · intro r c hrr hcc
    rw [hmap]
    have hbound : r * cols + c < cols * rows := by
      have h1 : r * cols + c < (r + 1) * cols := by
        have := Nat.add_lt_add_left hcc (r * cols)
        calc r * cols + c < r * cols + cols := this
        _ = (r + 1) * cols := by ring
      have h2 : (r + 1) * cols ≤ rows * cols := Nat.mul_le_mul_right cols hrr
      calc r * cols + c < (r + 1) * cols := h1
      _ ≤ rows * cols := h2
      _ = cols * rows := Nat.mul_comm rows cols
    rw [List.getElem?_range' 1 1 hbound]
    congr 1
    omega

theorem annotate_badge_numbering_witness :
    (annotate ⟨300, 240⟩ 3 3).width = 300 ∧
    (annotate ⟨300, 240⟩ 3 3).height = 240 ∧
    (annotate ⟨300, 240⟩ 3 3).badges.length = 9 ∧
    ((annotate ⟨300, 240⟩ 3 3).badges.map Badge.num) = List.range' 1 9 ∧
    ((annotate ⟨300, 240⟩ 3 3).badges.map Badge.num)[1 * 3 + 2]? = some (1 * 3 + 2 + 1) :=
  ⟨(annotate_badge_numbering ⟨300, 240⟩ 3 3 (by decide) (by decide)).1,
   (annotate_badge_numbering ⟨300, 240⟩ 3 3 (by decide) (by decide)).2.1,
   (annotate_badge_numbering ⟨300, 240⟩ 3 3 (by decide) (by decide)).2.2.1,
   (annotate_badge_numbering ⟨300, 240⟩ 3 3 (by decide) (by decide)).2.2.2.1,
   (annotate_badge_numbering ⟨300, 240⟩ 3 3 (by decide) (by decide)).2.2.2.2 1 2
     (by decide) (by decide)⟩

/-- C8: `inject` never raises past its own boundary — whenever the
dispatched strategy body throws (any `Except.error` from any page
primitive, for any page, descriptor, answer and kind), `inject` converts
the exception into a `false` return (with the interactions performed up
to that point), never propagating it to the caller. -/
theorem inject_catches_errors (page : Page) (captcha : Captcha)
    (answer : ParsedAnswer) (ty : String) (err : String) (t : List PageAction)
    (h : injectTry page captcha answer ty = (.error err, t)) :
    inject page captcha answer ty = (false, t) := by
  unfold inject
  rw [h]

theorem inject_catches_errors_witness :
    injectTry throwingPage ⟨"recaptcha-v2", true, none⟩ (.cells [1]) "grid"
      = (.error "boom", []) ∧
    inject throwingPage ⟨"recaptcha-v2", true, none⟩ (.cells [1]) "grid"
      = (false, []) :=
  ⟨rfl, inject_catches_errors _ _ _ _ "boom" [] rfl⟩

/-- C10: a kind other than grid, text or checkbox falls through the
dispatch: `inject` returns `false` with an empty interaction trace (no
page primitive is invoked) and, being a total function into booleans,
without raising. -/
theorem inject_unknown_kind (page : Page) (captcha : Captcha)
    (answer : ParsedAnswer) (ty : String)
    (h1 : ty ≠ "grid") (h2 : ty ≠ "text") (h3 : ty ≠ "checkbox") :
    inject page captcha answer ty = (false, []) := by
  unfold inject injectTry
  rw [if_neg h1, if_neg h2, if_neg h3]

theorem inject_unknown_kind_witness :
    inject emptyPage ⟨"recaptcha-v2", true, none⟩ (.text "a") "slider" = (false, []) :=
  inject_unknown_kind emptyPage ⟨"recaptcha-v2", true, none⟩ (.text "a") "slider"
    (by decide) (by decide) (by decide)

/-- C2 (amended): an empty detection makes `solve` return a failed result
whose error string is the source's `"No CAPTCHA detected"` (the claim's
`"no challenge detected"` does not occur in the code), with no Telegram
send and no injector invocation. -/
theorem solve_no_captcha (cfg : RelayConfig) (env : SolveEnv) (opts : SolveOptions)
    (h : env.detected = []) :
    solve cfg env opts = (⟨false, none, none, some "No CAPTCHA detected"⟩, []) := by
  unfold solve
  rw [h]

theorem solve_no_captcha_witness :
    solve ⟨"chat", 120000⟩ ⟨[], ⟨300, 300⟩, none, emptyPage⟩ ⟨"auto", none, none⟩
      = (⟨false, none, none, some "No CAPTCHA detected"⟩, []) :=
  solve_no_captcha ⟨"chat", 120000⟩ ⟨[], ⟨300, 300⟩, none, emptyPage⟩
    ⟨"auto", none, none⟩ rfl

/-- C2 counterexample: with no detection, `solve` returns the error
string `"No CAPTCHA detected"`, which differs from the claimed
`"no challenge detected"`. -/
theorem solve_no_captcha_string_cex :
    (solve ⟨"chat", 120000⟩ ⟨[], ⟨300, 300⟩, none, emptyPage⟩ ⟨"auto", none, none⟩).1.error
      = some "No CAPTCHA detected" ∧
    ("No CAPTCHA detected" : String) ≠ "no challenge detected" := by
  exact ⟨rfl, by decide⟩

/-- C3 (amended): when a grid-kind challenge is detected (inferred or
forced) and the reply wait times out, `solve` returns a failed result
whose error string is the source's `"Timeout waiting for human
response"` (capital T, unlike the claim's spelling), after exactly one
image send and with no injector invocation. -/
theorem solve_grid_timeout (cfg : RelayConfig) (env : SolveEnv) (opts : SolveOptions)
    (captcha : Captcha) (rest : List Captcha)
    (hdet : env.detected = captcha :: rest)
    (hty : (if opts.type = "auto" then inferType captcha else opts.type) = "grid")
    (hreply : env.reply = none) :
    (solve cfg env opts).1
      = ⟨false, none, some "grid", some "Timeout waiting for human response"⟩ ∧
    ((solve cfg env opts).2.countP isSendPhoto) = 1 ∧
    ((solve cfg env opts).2.countP isInjectCall) = 0 := by
  unfold solve
  rw [hdet]
  simp only [hty, hreply]
  simp [isSendPhoto, isInjectCall]

theorem solve_grid_timeout_witness :
    (solve ⟨"chat", 120000⟩
        ⟨[⟨"recaptcha-v2", true, none⟩], ⟨300, 300⟩, none, emptyPage⟩
        ⟨"auto", none, none⟩).1
      = ⟨false, none, some "grid", some "Timeout waiting for human response"⟩ ∧
    ((solve ⟨"chat", 120000⟩
        ⟨[⟨"recaptcha-v2", true, none⟩], ⟨300, 300⟩, none, emptyPage⟩
        ⟨"auto", none, none⟩).2.countP isSendPhoto) = 1 ∧
    ((solve ⟨"chat", 120000⟩
        ⟨[⟨"recaptcha-v2", true, none⟩], ⟨300, 300⟩, none, emptyPage⟩
        ⟨"auto", none, none⟩).2.countP isInjectCall) = 0 :=
  solve_grid_timeout ⟨"chat", 120000⟩
    ⟨[⟨"recaptcha-v2", true, none⟩], ⟨300, 300⟩, none, emptyPage⟩
    ⟨"auto", none, none⟩ ⟨"recaptcha-v2", true, none⟩ [] rfl (by decide) rfl

/-- C3 counterexample: on a detected grid challenge with a timed-out
reply wait, `solve` returns the error string `"Timeout waiting for human
response"`, which differs from the claimed spelling `"timeout waiting
for human response"` (and the image send did happen exactly once). -/
theorem solve_timeout_string_cex :
    (solve ⟨"c2", 60000⟩
        ⟨[⟨"hcaptcha", true, none⟩], ⟨320, 200⟩, none, emptyPage⟩
        ⟨"auto", none, none⟩).1.error
      = some "Timeout waiting for human response" ∧
    ((solve ⟨"c2", 60000⟩
        ⟨[⟨"hcaptcha", true, none⟩], ⟨320, 200⟩, none, emptyPage⟩
        ⟨"auto", none, none⟩).2.countP isSendPhoto) = 1 ∧
    ("Timeout waiting for human response" : String)
      ≠ "timeout waiting for human response" := by
  refine ⟨rfl, rfl, by decide⟩

theorem le_maxUpdateId (u : TgUpdate) (l : List TgUpdate) (h : u ∈ l) :
    u.update_id ≤ maxUpdateId l := by
  induction l with
  | nil => cases h
  | cons v rest ih =>
    rcases List.mem_cons.mp h with h1 | h2
    · subst h1
      simp only [maxUpdateId, List.foldr_cons]
      omega
    · have := ih h2
      simp only [maxUpdateId, List.foldr_cons] at *
      omega

theorem le_getUpdatesCursor (c : ℕ) (b : List TgUpdate)
    (hall : ∀ u ∈ b, c ≤ u.update_id) : c ≤ getUpdatesCursor c b := by
  cases b with
  | nil => simp [getUpdatesCursor]
  | cons u rest =>
    have h1 : c ≤ u.update_id := hall u (by simp)
    have h2 : u.update_id ≤ maxUpdateId (u :: rest) := le_maxUpdateId u _ (by simp)
    simp only [getUpdatesCursor, List.isEmpty_cons, Bool.false_eq_true, if_false]
    omega

theorem validBatch_le (c : ℕ) (b : List TgUpdate) (h : validBatch c b = true) :
    ∀ u ∈ b, c ≤ u.update_id := by
  simp only [validBatch, Bool.and_eq_true, List.all_eq_true, decide_eq_true_eq] at h
  exact h.1

theorem validBatch_pairwise (c : ℕ) (b : List TgUpdate) (h : validBatch c b = true) :
    (b.map (fun u => u.update_id)).Pairwise (· < ·) := by
  simp only [validBatch, Bool.and_eq_true, decide_eq_true_eq] at h
  exact h.2

theorem findReply_id_mem (target : String) :
    ∀ (l : List TgUpdate) (uid : ℕ) (t : String),
      findReply target l = some (uid, t) → uid ∈ l.map (fun u => u.update_id) := by
  intro l
  induction l with
  | nil => intro uid t h; simp [findReply] at h
  | cons u rest ih =>
    intro uid t h
    rcases u with ⟨uid0, msg, cbq⟩
    rcases msg with _ | ⟨mchat, mtext⟩
    · simp only [findReply] at h
      simpa using List.mem_cons_of_mem _ (ih uid t h)
    · rcases mtext with _ | t0
      · simp only [findReply] at h
        simpa using List.mem_cons_of_mem _ (ih uid t h)
      · simp only [findReply] at h
        by_cases hc : mchat = target
        · rw [if_pos hc] at h
          simp only [Option.some.injEq, Prod.mk.injEq] at h
          simp [← h.1]
        · rw [if_neg hc] at h
          simpa using List.mem_cons_of_mem _ (ih uid t h)

theorem waitForReplyStep_spec (target : String) (c : ℕ) (batch : List TgUpdate)
    (hall : ∀ u ∈ batch, c ≤ u.update_id) :
    c ≤ (waitForReplyStep target c batch).1
    ∧ (∀ a ∈ (waitForReplyStep target c batch).2.2,
        c ≤ a ∧ a < (waitForReplyStep target c batch).1)
    ∧ ((waitForReplyStep target c batch).2.2).Pairwise (· < ·) := by
  unfold waitForReplyStep
  rcases hf : findReply target batch with _ | ⟨uid, t⟩
  · refine ⟨le_getUpdatesCursor c batch hall, ?_, by simp⟩
    intro a ha
    simp at ha
  · dsimp only
    have hmem : uid ∈ batch.map (fun u => u.update_id) :=
      findReply_id_mem target batch uid t hf
    rcases List.mem_map.mp hmem with ⟨u, hu, huid⟩
    have hcu : c ≤ uid := huid ▸ hall u hu
    refine ⟨by omega, ?_, by simp⟩
    intro a ha
    simp only [List.mem_singleton] at ha
    omega

theorem runWaitForReply_spec (target : String) :
    ∀ (bs : List (List TgUpdate)) (c : ℕ),
      validRunReply target c bs = true →
      c ≤ (runWaitForReply target c bs).1
      ∧ (∀ a ∈ (runWaitForReply target c bs).2.2,
          c ≤ a ∧ a < (runWaitForReply target c bs).1)
      ∧ ((runWaitForReply target c bs).2.2).Pairwise (· < ·) := by
  intro bs
  induction bs with
  | nil =>
    intro c _
    refine ⟨le_refl c, ?_, by simp [runWaitForReply]⟩
    intro a ha
    simp [runWaitForReply] at ha
  | cons b bs ih =>
    intro c hv
    simp only [validRunReply, Bool.and_eq_true] at hv
    have hstep := waitForReplyStep_spec target c b (validBatch_le c b hv.1)
    rcases hs : waitForReplyStep target c b with ⟨c1, ores, acted⟩
    rw [hs] at hstep
    rcases ores with _ | t
    · have hv2 : validRunReply target c1 bs = true := by
        have := hv.2
        rw [hs] at this
        exact this
      have hrun := ih c1 hv2
      have hrw : runWaitForReply target c (b :: bs) = runWaitForReply target c1 bs := by
        simp only [runWaitForReply, hs]
      rw [hrw]
      refine ⟨le_trans hstep.1 hrun.1, ?_, hrun.2.2⟩
      intro a ha
      have := hrun.2.1 a ha
      exact ⟨le_trans hstep.1 this.1, this.2⟩
    · have hrw : runWaitForReply target c (b :: bs) = (c1, some t, acted) := by
        simp only [runWaitForReply, hs]
      rw [hrw]
      exact ⟨hstep.1, hstep.2.1, hstep.2.2⟩

theorem processButtonUpdate_inv (target : String) (msgId cols rows c : ℕ)
    (sel : List ℕ) (u : TgUpdate) :
    ((processButtonUpdate target msgId cols rows c sel u).acted = []
      ∧ (processButtonUpdate target msgId cols rows c sel u).cursor = c)
    ∨ ((processButtonUpdate target msgId cols rows c sel u).acted = [u.update_id]
      ∧ (processButtonUpdate target msgId cols rows c sel u).cursor
          = u.update_id + 1) := by
  rcases u with ⟨uid, msg, cbq⟩
  rcases msg with _ | ⟨mchat, mtext⟩
  · unfold processButtonUpdate
    dsimp only
    repeat' split
    all_goals simp_all
  · rcases mtext with _ | t0
    · unfold processButtonUpdate
      dsimp only
      repeat' split
      all_goals simp_all
    · unfold processButtonUpdate
      dsimp only
      by_cases hc : mchat = target
      · rw [if_pos hc]
        cases hd : digitRuns t0 with
        | nil =>
          dsimp only [List.isEmpty_nil]
          repeat' split
          all_goals simp_all
        | cons x xs =>
          dsimp only [List.isEmpty_cons]
          repeat' split
          all_goals simp_all
      · rw [if_neg hc]
        dsimp only
        repeat' split
        all_goals simp_all

theorem processButtonBatch_spec (target : String) (msgId cols rows : ℕ) :
    ∀ (batch : List TgUpdate) (cIn : ℕ) (sel : List ℕ),
      (batch.map (fun u => u.update_id)).Pairwise (· < ·) →
      ((processButtonBatch target msgId cols rows cIn sel batch).acted.Sublist
          (batch.map (fun u => u.update_id)))
      ∧ (∀ a ∈ (processButtonBatch target msgId cols rows cIn sel batch).acted,
          a < (processButtonBatch target msgId cols rows cIn sel batch).cursor)
      ∧ ((processButtonBatch target msgId cols rows cIn sel batch).cursor = cIn
          ∨ ∃ i ∈ batch.map (fun u => u.update_id),
              (processButtonBatch target msgId cols rows cIn sel batch).cursor
                = i + 1) := by
  intro batch
  induction batch with
  | nil =>
    intro cIn sel _
    refine ⟨by simp [processButtonBatch], ?_, by simp [processButtonBatch]⟩
    intro a ha
    simp [processButtonBatch] at ha
  | cons u rest ih =>
    intro cIn sel hpw
    have hpw' : (rest.map (fun u => u.update_id)).Pairwise (· < ·) :=
      (List.pairwise_cons.mp (by simpa using hpw)).2
    have hhead : ∀ i ∈ rest.map (fun u => u.update_id), u.update_id < i :=
      (List.pairwise_cons.mp (by simpa using hpw)).1
    have hinv := processButtonUpdate_inv target msgId cols rows cIn sel u
    rcases hres : (processButtonUpdate target msgId cols rows cIn sel u).result
      with _ | r
    · -- no terminal event: recurse
      have hrw : processButtonBatch target msgId cols rows cIn sel (u :: rest)
          = ⟨(processButtonBatch target msgId cols rows
                (processButtonUpdate target msgId cols rows cIn sel u).cursor
                (processButtonUpdate target msgId cols rows cIn sel u).selected rest).cursor,
             (processButtonBatch target msgId cols rows
                (processButtonUpdate target msgId cols rows cIn sel u).cursor
                (processButtonUpdate target msgId cols rows cIn sel u).selected rest).selected,
             (processButtonUpdate target msgId cols rows cIn sel u).effects ++
               (processButtonBatch target msgId cols rows
                (processButtonUpdate target msgId cols rows cIn sel u).cursor
                (processButtonUpdate target msgId cols rows cIn sel u).selected rest).effects,
             (processButtonBatch target msgId cols rows
                (processButtonUpdate target msgId cols rows cIn sel u).cursor
                (processButtonUpdate target msgId cols rows cIn sel u).selected rest).result,
             (processButtonUpdate target msgId cols rows cIn sel u).acted ++
               (processButtonBatch target msgId cols rows
                (processButtonUpdate target msgId cols rows cIn sel u).cursor
                (processButtonUpdate target msgId cols rows cIn sel u).selected rest).acted⟩ := by
        simp only [processButtonBatch, hres]
      have hrec := ih (processButtonUpdate target msgId cols rows cIn sel u).cursor
        (processButtonUpdate target msgId cols rows cIn sel u).selected hpw'
      rw [hrw]
      dsimp only
      rcases hinv with ⟨ha0, hc0⟩ | ⟨ha1, hc1⟩
      · simp only [ha0, hc0] at hrec ⊢
        refine ⟨?_, ?_, ?_⟩
        · simp only [List.nil_append, List.map_cons]
          exact hrec.1.cons u.update_id
        · intro a ha
          simp only [List.nil_append] at ha
          exact hrec.2.1 a ha
        · rcases hrec.2.2 with h | ⟨i, hi, hci⟩
          · left; exact h
          · right; exact ⟨i, by simp [hi], hci⟩
      · simp only [ha1, hc1] at hrec ⊢
        refine ⟨?_, ?_, ?_⟩
        · simp only [List.map_cons, List.singleton_append]
          exact hrec.1.cons₂ u.update_id
        · intro a ha
          rcases List.mem_append.mp ha with hal | har
          · simp only [List.mem_singleton] at hal
            subst hal
            rcases hrec.2.2 with h | ⟨i, hi, hci⟩
            · omega
            · have := hhead i hi
              omega
          · exact hrec.2.1 a har
        · rcases hrec.2.2 with h | ⟨i, hi, hci⟩
          · rw [h]
            right
            exact ⟨u.update_id, by simp, rfl⟩
          · right
            exact ⟨i, by simp [hi], hci⟩
    · -- terminal event: the batch result is the per-update result
      have hrw : processButtonBatch target msgId cols rows cIn sel (u :: rest)
          = processButtonUpdate target msgId cols rows cIn sel u := by
        simp only [processButtonBatch, hres]
      rw [hrw]
      rcases hinv with ⟨ha0, hc0⟩ | ⟨ha1, hc1⟩
      · rw [ha0, hc0]
        refine ⟨List.nil_sublist _, ?_, Or.inl rfl⟩
        intro a ha
        simp at ha
      · rw [ha1, hc1]
        refine ⟨?_, ?_, ?_⟩
        · simp only [List.map_cons]
          exact (List.nil_sublist _).cons₂ u.update_id
        · intro a ha
          simp only [List.mem_singleton] at ha
          omega
        · right
          exact ⟨u.update_id, by simp, rfl⟩

theorem waitForButtonStep_spec (target : String) (msgId cols rows : ℕ)
    (c : ℕ) (sel : List ℕ) (batch : List TgUpdate)
    (hall : ∀ u ∈ batch, c ≤ u.update_id)
    (hpw : (batch.map (fun u => u.update_id)).Pairwise (· < ·)) :
    c ≤ (waitForButtonStep target msgId cols rows c sel batch).cursor
    ∧ (∀ a ∈ (waitForButtonStep target msgId cols rows c sel batch).acted,
        c ≤ a ∧ a < (waitForButtonStep target msgId cols rows c sel batch).cursor)
    ∧ (waitForButtonStep target msgId cols rows c sel batch).acted.Pairwise (· < ·) := by
  have hcIn : c ≤ getUpdatesCursor c batch := le_getUpdatesCursor c batch hall
  have hb := processButtonBatch_spec target msgId cols rows batch
    (getUpdatesCursor c batch) sel hpw
  have hmem : ∀ a ∈ (waitForButtonStep target msgId cols rows c sel batch).acted,
      c ≤ a := by
    intro a ha
    have hmm : a ∈ batch.map (fun u => u.update_id) := hb.1.mem ha
    rcases List.mem_map.mp hmm with ⟨u, hu, hua⟩
    exact hua ▸ hall u hu
  refine ⟨?_, ?_, hpw.sublist hb.1⟩
  · rcases hb.2.2 with h | ⟨i, hi, hci⟩
    · unfold waitForButtonStep
      omega
    · rcases List.mem_map.mp hi with ⟨u, hu, hui⟩
      have : c ≤ i := hui ▸ hall u hu
      unfold waitForButtonStep
      omega
  · intro a ha
    exact ⟨hmem a ha, hb.2.1 a ha⟩

theorem runWaitForButton_spec (target : String) (msgId cols rows : ℕ) :
    ∀ (bs : List (List TgUpdate)) (c : ℕ) (sel : List ℕ),
      validRunButton target msgId cols rows c sel bs = true →
      c ≤ (runWaitForButton target msgId cols rows c sel bs).cursor
      ∧ (∀ a ∈ (runWaitForButton target msgId cols rows c sel bs).acted,
          c ≤ a ∧ a < (runWaitForButton target msgId cols rows c sel bs).cursor)
      ∧ (runWaitForButton target msgId cols rows c sel bs).acted.Pairwise (· < ·) := by
  intro bs
  induction bs with
  | nil =>
    intro c sel _
    refine ⟨le_refl c, ?_, by simp [runWaitForButton]⟩
    intro a ha
    simp [runWaitForButton] at ha
  | cons b bs ih =>
    intro c sel hv
    simp only [validRunButton, Bool.and_eq_true] at hv
    have hstep := waitForButtonStep_spec target msgId cols rows c sel b
      (validBatch_le c b hv.1) (validBatch_pairwise c b hv.1)
    rcases hres : (waitForButtonStep target msgId cols rows c sel b).result
      with _ | r
    · have hrw : runWaitForButton target msgId cols rows c sel (b :: bs)
          = ⟨(runWaitForButton target msgId cols rows
                (waitForButtonStep target msgId cols rows c sel b).cursor
                (waitForButtonStep target msgId cols rows c sel b).selected bs).cursor,
             (runWaitForButton target msgId cols rows
                (waitForButtonStep target msgId cols rows c sel b).cursor
                (waitForButtonStep target msgId cols rows c sel b).selected bs).selected,
             (waitForButtonStep target msgId cols rows c sel b).effects ++
               (runWaitForButton target msgId cols rows
                (waitForButtonStep target msgId cols rows c sel b).cursor
                (waitForButtonStep target msgId cols rows c sel b).selected bs).effects,
             (runWaitForButton target msgId cols rows
                (waitForButtonStep target msgId cols rows c sel b).cursor
                (waitForButtonStep target msgId cols rows c sel b).selected bs).result,
             (waitForButtonStep target msgId cols rows c sel b).acted ++
               (runWaitForButton target msgId cols rows
                (waitForButtonStep target msgId cols rows c sel b).cursor
                (waitForButtonStep target msgId cols rows c sel b).selected bs).acted⟩ := by
        simp only [runWaitForButton, hres]
      have hrec := ih (waitForButtonStep target msgId cols rows c sel b).cursor
        (waitForButtonStep target msgId cols rows c sel b).selected hv.2
      rw [hrw]
      dsimp only
      refine ⟨le_trans hstep.1 hrec.1, ?_, ?_⟩
      · intro a ha
        rcases List.mem_append.mp ha with hal | har
        · have h1 := hstep.2.1 a hal
          have h2 := hrec.1
          exact ⟨h1.1, lt_of_lt_of_le h1.2 h2⟩
        · have h1 := hrec.2.1 a har
          exact ⟨le_trans hstep.1 h1.1, h1.2⟩
      · rw [List.pairwise_append]
        refine ⟨hstep.2.2, hrec.2.2, ?_⟩
        intro a hal b2 hbr
        have h1 := hstep.2.1 a hal
        have h2 := hrec.2.1 b2 hbr
        omega
    · have hrw : runWaitForButton target msgId cols rows c sel (b :: bs)
          = waitForButtonStep target msgId cols rows c sel b := by
        simp only [runWaitForButton, hres]
      rw [hrw]
      exact hstep

/-- C4: within one relay session, the update cursor (`_lastUpdateId`) is
monotonically non-decreasing across any sequence of fetch-and-process
steps of `waitForReply` and of `waitForButtonResponse` — provided the
backend honours the `getUpdates` offset contract (returned ids at least
the requested offset, strictly increasing within a batch) — and the ids
of the updates acted on across the whole run are strictly increasing, so
every backend update is acted on at most once for that channel
instance. -/
theorem update_cursor_monotone :
    (∀ (target : String) (c : ℕ) (bs : List (List TgUpdate)),
      validRunReply target c bs = true →
      c ≤ (runWaitForReply target c bs).1
        ∧ ((runWaitForReply target c bs).2.2).Pairwise (· < ·)) ∧
    (∀ (target : String) (msgId cols rows : ℕ) (c : ℕ) (sel : List ℕ)
        (bs : List (List TgUpdate)),
      validRunButton target msgId cols rows c sel bs = true →
      c ≤ (runWaitForButton target msgId cols rows c sel bs).cursor
        ∧ (runWaitForButton target msgId cols rows c sel bs).acted.Pairwise (· < ·)) := by
  constructor
  · intro target c bs hv
    have h := runWaitForReply_spec target bs c hv
    exact ⟨h.1, h.2.2⟩
  · intro target msgId cols rows c sel bs hv
    have h := runWaitForButton_spec target msgId cols rows bs c sel hv
    exact ⟨h.1, h.2.2⟩

theorem update_cursor_monotone_witness :
    (0 ≤ (runWaitForReply "9" 0 [[⟨3, some ⟨"7", some "x"⟩, none⟩],
        [⟨5, some ⟨"9", some " hi "⟩, none⟩]]).1
      ∧ ((runWaitForReply "9" 0 [[⟨3, some ⟨"7", some "x"⟩, none⟩],
        [⟨5, some ⟨"9", some " hi "⟩, none⟩]]).2.2).Pairwise (· < ·)) ∧
    (0 ≤ (runWaitForButton "9" 1 3 3 0 []
        [[mkCbUpdate 2 "a" (.cell 1) "9" 1, mkCbUpdate 3 "b" .submit "9" 1]]).cursor
      ∧ (runWaitForButton "9" 1 3 3 0 []
        [[mkCbUpdate 2 "a" (.cell 1) "9" 1,
          mkCbUpdate 3 "b" .submit "9" 1]]).acted.Pairwise (· < ·)) :=
  ⟨update_cursor_monotone.1 "9" 0 [[⟨3, some ⟨"7", some "x"⟩, none⟩],
      [⟨5, some ⟨"9", some " hi "⟩, none⟩]] (by decide),
   update_cursor_monotone.2 "9" 1 3 3 0 []
      [[mkCbUpdate 2 "a" (.cell 1) "9" 1, mkCbUpdate 3 "b" .submit "9" 1]] (by decide)⟩
